import Mathlib

set_option maxHeartbeats 1000000

/- Shallow embedding of the dApp client (chain gateway, content-store bridge,
   orchestrator handlers) and proofs of the spec claims about it. -/

/- JavaScript string primitives used throughout the sources. -/

def jsStartsWith (s pre : String) : Bool := pre.data.isPrefixOf s.data

def infixOfAux (sub : List Char) : List Char → Bool
  | [] => sub.isEmpty
  | c :: rest => sub.isPrefixOf (c :: rest) || infixOfAux sub rest

def jsIncludes (s sub : String) : Bool := infixOfAux sub.data s.data

def jsSubstring (s : String) (a b : ℕ) : String := String.mk ((s.data.drop a).take (b - a))

def jsTake (s : String) (n : ℕ) : String := String.mk (s.data.take n)

def isWs (c : Char) : Bool := c = ' ' || c = '\t' || c = '\n' || c = '\r'

def jsTrim (s : String) : String :=
  String.mk (((s.data.dropWhile isWs).reverse.dropWhile isWs).reverse)

/- SHA-256 over byte lists: the model of crypto.subtle.digest used by the
   content-store upload fallback. Words are naturals reduced mod 2^32. -/

def w32 (x : ℕ) : ℕ := x % 4294967296

def rotr (n x : ℕ) : ℕ := w32 ((x >>> n) ||| (x <<< (32 - n)))

def shaCh (x y z : ℕ) : ℕ := (x &&& y) ^^^ ((x ^^^ 4294967295) &&& z)

def shaMaj (x y z : ℕ) : ℕ := (x &&& y) ^^^ (x &&& z) ^^^ (y &&& z)

def bigS0 (x : ℕ) : ℕ := rotr 2 x ^^^ rotr 13 x ^^^ rotr 22 x

def bigS1 (x : ℕ) : ℕ := rotr 6 x ^^^ rotr 11 x ^^^ rotr 25 x

def smallS0 (x : ℕ) : ℕ := rotr 7 x ^^^ rotr 18 x ^^^ (x >>> 3)

def smallS1 (x : ℕ) : ℕ := rotr 17 x ^^^ rotr 19 x ^^^ (x >>> 10)

def shaK : List ℕ :=
  [1116352408, 1899447441, 3049323471, 3921009573,
   961987163, 1508970993, 2453635748, 2870763221,
   3624381080, 310598401, 607225278, 1426881987,
   1925078388, 2162078206, 2614888103, 3248222580,
   3835390401, 4022224774, 264347078, 604807628,
   770255983, 1249150122, 1555081692, 1996064986,
   2554220882, 2821834349, 2952996808, 3210313671,
   3336571891, 3584528711, 113926993, 338241895,
   666307205, 773529912, 1294757372, 1396182291,
   1695183700, 1986661051, 2177026350, 2456956037,
   2730485921, 2820302411, 3259730800, 3345764771,
   3516065817, 3600352804, 4094571909, 275423344,
   430227734, 506948616, 659060556, 883997877,
   958139571, 1322822218, 1537002063, 1747873779,
   1955562222, 2024104815, 2227730452, 2361852424,
   2428436474, 2756734187, 3204031479, 3329325298]

structure Sha8 where
  a : ℕ
  b : ℕ
  c : ℕ
  d : ℕ
  e : ℕ
  f : ℕ
  g : ℕ
  h : ℕ

def shaInit : Sha8 :=
  ⟨1779033703, 3144134277, 1013904242, 2773480762, 1359893119, 2600822924, 528734635, 1541459225⟩

def schedStep (acc : List ℕ) : List ℕ :=
  let t := acc.length
  acc ++ [w32 (smallS1 (acc.getD (t - 2) 0) + acc.getD (t - 7) 0 +
               smallS0 (acc.getD (t - 15) 0) + acc.getD (t - 16) 0)]

def shaSchedule (block : List ℕ) : List ℕ :=
  (List.range 48).foldl (fun acc _ => schedStep acc) block

def shaRound (w : List ℕ) (st : Sha8) (i : ℕ) : Sha8 :=
  let t1 := w32 (st.h + bigS1 st.e + shaCh st.e st.f st.g + shaK.getD i 0 + w.getD i 0)
  let t2 := w32 (bigS0 st.a + shaMaj st.a st.b st.c)
  ⟨w32 (t1 + t2), st.a, st.b, st.c, w32 (st.d + t1), st.e, st.f, st.g⟩

def compressBlock (hv : Sha8) (block : List ℕ) : Sha8 :=
  let w := shaSchedule block
  let st := (List.range 64).foldl (shaRound w) hv
  ⟨w32 (hv.a + st.a), w32 (hv.b + st.b), w32 (hv.c + st.c), w32 (hv.d + st.d),
   w32 (hv.e + st.e), w32 (hv.f + st.f), w32 (hv.g + st.g), w32 (hv.h + st.h)⟩

def lenBytes64 (n : ℕ) : List ℕ :=
  [n / 72057594037927936 % 256, n / 281474976710656 % 256, n / 1099511627776 % 256,
   n / 4294967296 % 256, n / 16777216 % 256, n / 65536 % 256, n / 256 % 256, n % 256]

def shaPad (msg : List ℕ) : List ℕ :=
  let z := (183 - (msg.length % 64)) % 64
  msg ++ 128 :: (List.replicate z 0 ++ lenBytes64 (8 * msg.length))

def bytesToWord (b : List ℕ) (i : ℕ) : ℕ :=
  b.getD i 0 * 16777216 + b.getD (i + 1) 0 * 65536 + b.getD (i + 2) 0 * 256 + b.getD (i + 3) 0

def shaBlocks (padded : List ℕ) : List (List ℕ) :=
  (List.range (padded.length / 64)).map fun bi =>
    (List.range 16).map fun wi => bytesToWord padded (64 * bi + 4 * wi)

def sha256Words (msg : List ℕ) : Sha8 :=
  (shaBlocks (shaPad msg)).foldl compressBlock shaInit

def wordBytes (wv : ℕ) : List ℕ := [wv / 16777216 % 256, wv / 65536 % 256, wv / 256 % 256, wv % 256]

def sha256Bytes (msg : List ℕ) : List ℕ :=
  let hh := sha256Words msg
  wordBytes hh.a ++ wordBytes hh.b ++ wordBytes hh.c ++ wordBytes hh.d ++
  wordBytes hh.e ++ wordBytes hh.f ++ wordBytes hh.g ++ wordBytes hh.h

def hexChar (n : ℕ) : Char := if n < 10 then Char.ofNat (48 + n) else Char.ofNat (87 + n)

def byteHex (b : ℕ) : List Char := [hexChar (b / 16 % 16), hexChar (b % 16)]

def bytesToHex (bs : List ℕ) : String := String.mk (bs.map byteHex).flatten

def sha256Hex (msg : List ℕ) : String := bytesToHex (sha256Bytes msg)

def utf8Char (c : Char) : List ℕ :=
  let n := c.toNat
  if n < 128 then [n]
  else if n < 2048 then [192 + n / 64, 128 + n % 64]
  else if n < 65536 then [224 + n / 4096, 128 + n / 64 % 64, 128 + n % 64]
  else [240 + n / 262144, 128 + n / 4096 % 64, 128 + n / 64 % 64, 128 + n % 64]

def utf8Encode (s : String) : List ℕ := (s.data.map utf8Char).flatten

/- JSON.stringify for the fixed-shape task object built by addTask (part_001,
   lines 319 to 324), with the standard JSON string escaping. -/

def jsonEscapeChar (c : Char) : List Char :=
  if c = '"' then ['\\', '"']
  else if c = '\\' then ['\\', '\\']
  else if c = '\x08' then ['\\', 'b']
  else if c = '\x09' then ['\\', 't']
  else if c = '\x0a' then ['\\', 'n']
  else if c = '\x0c' then ['\\', 'f']
  else if c = '\x0d' then ['\\', 'r']
  else if c.toNat < 32 then ['\\', 'u', '0', '0', hexChar (c.toNat / 16 % 16), hexChar (c.toNat % 16)]
  else [c]

def jsonQuote (s : String) : String := String.mk ('"' :: ((s.data.map jsonEscapeChar).flatten ++ ['"']))

structure TaskData where
  text : String
  createdAt : String
  version : String
  type : String
deriving DecidableEq

def stringifyTaskData (d : TaskData) : String :=
  "\x7b" ++ jsonQuote "text" ++ ":" ++ jsonQuote d.text ++ "," ++
  jsonQuote "createdAt" ++ ":" ++ jsonQuote d.createdAt ++ "," ++
  jsonQuote "version" ++ ":" ++ jsonQuote d.version ++ "," ++
  jsonQuote "type" ++ ":" ++ jsonQuote d.type ++ "\x7d"

/- Content Store Bridge (part_001): _uploadToIPFS and _fetchFromIPFS. -/

/-- Outcome of the POST to the pinning endpoint, as observed by _uploadToIPFS:
the fetch resolved with response.ok and an IpfsHash, resolved with a
non-success status, or the fetch (or response.json) threw. -/
inductive PinataResponse where
  | ok (ipfsHash : String)
  | httpError
  | netError
deriving DecidableEq

/-- The deterministic local reference built in both failure branches of
_uploadToIPFS: "fallback_" plus the first 32 hex characters of the SHA-256
digest of the serialized task object. -/
def fallbackRef (taskString : String) : String :=
  "fallback_" ++ jsTake (sha256Hex (utf8Encode taskString)) 32

def uploadToIPFS (pr : PinataResponse) (d : TaskData) : String :=
  match pr with
  | .ok h => h
  | .httpError => fallbackRef (stringifyTaskData d)
  | .netError => fallbackRef (stringifyTaskData d)

/-- The shape check on line 122 of part_001: alphanumeric and at least 46
characters. -/
def isAlphaNum (c : Char) : Bool :=
  (48 ≤ c.toNat && c.toNat ≤ 57) || (65 ≤ c.toNat && c.toNat ≤ 90) ||
  (97 ≤ c.toNat && c.toNat ≤ 122)

def isValidIPFSHash (s : String) : Bool :=
  decide (46 ≤ s.data.length) && s.data.all isAlphaNum

/-- The fixed gateway list of _fetchFromIPFS. -/
def ipfsGateways : List String :=
  ["https://ipfs.io/ipfs", "https://dweb.link/ipfs", "https://gateway.ipfs.io/ipfs",
   "https://cloudflare.com/ipfs", "https://cf-ipfs.com/ipfs"]

/-- What one gateway GET yields for the requested hash: a parsed JSON payload,
or a failure (abort timeout, network error, non-ok status, or JSON parse
error) carrying the error message. -/
abbrev GatewayResponse := Except String TaskData

instance {e a : Type} [DecidableEq e] [DecidableEq a] : DecidableEq (Except e a) := fun x y =>
  match x, y with
  | .ok v, .ok w => if h : v = w then .isTrue (by rw [h]) else .isFalse (by simp [h])
  | .error v, .error w => if h : v = w then .isTrue (by rw [h]) else .isFalse (by simp [h])
  | .ok _, .error _ => .isFalse (by simp)
  | .error _, .ok _ => .isFalse (by simp)

/-- The result object _fetchFromIPFS returns: the fallback-hash note
(type fallback), legacy plain text (type legacy_text), the fetched JSON
payload, or the degraded placeholder (type ipfs_error) carrying the final
error message. -/
inductive ResolveOutcome where
  | fallbackNote (text : String)
  | legacy (text : String)
  | fetched (d : TaskData)
  | unavailable (text : String) (error : String)
deriving DecidableEq

def ResolveOutcome.text : ResolveOutcome → String
  | .fallbackNote t => t
  | .legacy t => t
  | .fetched d => d.text
  | .unavailable t _ => t

/-- The gateway loop (lines 141 to 178): try each gateway in order, return the
first successful payload, remember the last error; after the loop, throw the
combined message. Also returns the list of gateways actually contacted. -/
def tryGateways : List (String × GatewayResponse) → Option String →
    Except String TaskData × List String
  | [], last =>
    (.error ("We tried all available sources but couldn\x27t find your task data. Last error: " ++
      last.getD "Unknown issue"), [])
  | (g, r) :: rest, _ =>
    match r with
    | .ok d => (.ok d, [g])
    | .error e =>
      let r := tryGateways rest (some e)
      (r.1, g :: r.2)

/-- The try-block of _fetchFromIPFS: classification by shape, then the gateway
loop; the final throw of the loop is the .error case. -/
def fetchFromIPFSTry (resp : List GatewayResponse) (ipfsHash : String) :
    Except String ResolveOutcome × List String :=
  if jsStartsWith ipfsHash "fallback_" then
    (.ok (.fallbackNote ("Task (saved locally: " ++ jsSubstring ipfsHash 9 15 ++ "...)")), [])
  else if !(isValidIPFSHash ipfsHash) then
    (.ok (.legacy ipfsHash), [])
  else
    let r := tryGateways (ipfsGateways.zip resp) none
    match r.1 with
    | .ok d => (.ok (.fetched d), r.2)
    | .error e => (.error e, r.2)

/-- _fetchFromIPFS: the try-block wrapped in the catch that converts any
failure into the degraded placeholder carrying the hash prefix and the error
message. -/
def fetchFromIPFS (resp : List GatewayResponse) (ipfsHash : String) :
    ResolveOutcome × List String :=
  let r := fetchFromIPFSTry resp ipfsHash
  match r.1 with
  | .ok o => (o, r.2)
  | .error e =>
    (.unavailable ("Task (temporarily unavailable: " ++ jsTake ipfsHash 8 ++ "...)") e, r.2)

/- Chain Gateway: the Web3Service class of src/src/services/web3Service.js.
   The mutable fields of the class are the service state; wallet, provider and
   contract behaviour is supplied as an environment; contract and wallet calls
   actually issued are returned as a trace. -/

namespace W3

structure ServiceState where
  hasProvider : Bool := false
  hasSigner : Bool := false
  hasContract : Bool := false
  account : Option String := none
  isInitialized : Bool := false
deriving DecidableEq

/-- The field values set by the constructor (all null / false). -/
def initialState : ServiceState := {}

def _isReady (s : ServiceState) : Bool := s.hasContract && s.isInitialized

def isConnected (s : ServiceState) : Bool := s.account.isSome && s.isInitialized

def getAccount (s : ServiceState) : Option String := s.account

def getFormattedAccount (s : ServiceState) : Option String :=
  match s.account with
  | none => none
  | some a =>
    if a.isEmpty then none
    else some (String.mk (a.data.take 6) ++ "..." ++ String.mk (a.data.drop (a.data.length - 4)))

def disconnect (_ : ServiceState) : ServiceState :=
  { hasProvider := false, hasSigner := false, hasContract := false,
    account := none, isInitialized := false }

def _formatDate (dateFmt : ℕ → String) (timestamp : ℕ) : String :=
  if timestamp = 0 then "Unknown" else dateFmt timestamp

/- _ensureCorrectNetwork (lines 60 to 95). -/

structure JsErr where
  code : Option ℤ
  message : String
deriving DecidableEq

structure NetworkEnv where
  chainId : ℕ
  switchResult : Except JsErr Unit
  addResult : Except JsErr Unit

/-- A wallet request issued through window.ethereum.request. -/
inductive WalletReq where
  | switchChain (chainIdHex : String)
  | addChain (chainIdHex chainName : String) (rpcUrls : List String)
      (currencyName currencySymbol : String) (currencyDecimals : ℕ)
      (blockExplorerUrls : List String)
deriving DecidableEq

/-- The add-network parameters of lines 78 to 88. -/
def sepoliaAddParams : WalletReq :=
  .addChain "0xaa36a7" "Sepolia Testnet" ["https://sepolia.infura.io/v3/"]
    "SepoliaETH" "SEP" 18 ["https://sepolia.etherscan.io/"]

def WalletReq.isSwitch : WalletReq → Bool
  | .switchChain _ => true
  | _ => false

def WalletReq.isAdd : WalletReq → Bool
  | .addChain _ _ _ _ _ _ _ => true
  | _ => false

def _ensureCorrectNetwork (env : NetworkEnv) : Except String Unit × List WalletReq :=
  if env.chainId = 11155111 then (.ok (), [])
  else
    match env.switchResult with
    | .ok _ => (.ok (), [.switchChain "0xaa36a7"])
    | .error se =>
      if se.code = some 4902 then
        match env.addResult with
        | .ok _ => (.ok (), [.switchChain "0xaa36a7", sepoliaAddParams])
        | .error ae => (.error ae.message, [.switchChain "0xaa36a7", sepoliaAddParams])
      else (.error "Please switch to Sepolia testnet to continue", [.switchChain "0xaa36a7"])

/- State-changing operations: addTask, completeTaskIfPriceAbove, addAdmin.
   Each is two-phase: the contract call produces a transaction (or throws),
   then transaction.wait() confirms (or throws). -/

/-- Behaviour of one submitted transaction: the contract method call result
(transaction hash, or the thrown error message) and the result of
transaction.wait(). -/
structure TxEnv where
  submit : Except String String
  wait : Except String Unit

/-- Contract or transaction interactions actually performed, in order. -/
inductive ChainCall where
  | submitAddTask (text : String)
  | submitCompleteTask (idx : ℤ) (threshold : ℤ)
  | submitAddAdmin (addr : String)
  | getTasksCall
  | txWait
deriving DecidableEq

structure TxSuccess where
  transactionHash : String
  message : String
deriving DecidableEq

def addTask (s : ServiceState) (env : TxEnv) (taskText : String) :
    Except String TxSuccess × List ChainCall × ServiceState :=
  if !(_isReady s) then
    (.error "Please connect your wallet first to add tasks", [], s)
  else if taskText.isEmpty || (jsTrim taskText).isEmpty then
    (.error "Please enter a task description", [], s)
  else
    match env.submit with
    | .error e => (.error ("Unable to save task: " ++ e), [.submitAddTask (jsTrim taskText)], s)
    | .ok tx =>
      match env.wait with
      | .error e =>
        (.error ("Unable to save task: " ++ e), [.submitAddTask (jsTrim taskText), .txWait], s)
      | .ok _ =>
        (.ok ⟨tx, "Your task has been added to the blockchain!"⟩,
         [.submitAddTask (jsTrim taskText), .txWait], s)

def completeTaskIfPriceAbove (s : ServiceState) (env : TxEnv) (taskIndex threshold : ℤ) :
    Except String TxSuccess × List ChainCall × ServiceState :=
  if !(_isReady s) then
    (.error "Please connect your wallet first", [], s)
  else if taskIndex < 0 then
    (.error "Please select a valid task", [], s)
  else if threshold ≤ 0 then
    (.error "Please enter a valid price threshold", [], s)
  else
    match env.submit with
    | .error e =>
      (.error ("Unable to set up automatic task completion: " ++ e),
       [.submitCompleteTask taskIndex threshold], s)
    | .ok tx =>
      match env.wait with
      | .error e =>
        (.error ("Unable to set up automatic task completion: " ++ e),
         [.submitCompleteTask taskIndex threshold, .txWait], s)
      | .ok _ =>
        (.ok ⟨tx, "Task will auto-complete when price reaches $" ++ toString threshold⟩,
         [.submitCompleteTask taskIndex threshold, .txWait], s)

def addAdminErr (e : String) : String :=
  if jsIncludes e "revert" then "Only existing admins can add new admins"
  else "Unable to add admin: " ++ e

def addAdmin (s : ServiceState) (env : TxEnv) (adminAddress : String) :
    Except String TxSuccess × List ChainCall × ServiceState :=
  if !(_isReady s) then
    (.error "Please connect your wallet first", [], s)
  else if adminAddress.isEmpty then
    (.error "Please provide a valid address", [], s)
  else
    match env.submit with
    | .error e => (.error (addAdminErr e), [.submitAddAdmin adminAddress], s)
    | .ok tx =>
      match env.wait with
      | .error e => (.error (addAdminErr e), [.submitAddAdmin adminAddress, .txWait], s)
      | .ok _ =>
        (.ok ⟨tx, adminAddress ++ " is now an admin"⟩,
         [.submitAddAdmin adminAddress, .txWait], s)

/- getTasks (lines 101 to 125). -/

/-- A task struct as returned by the contract: the stored reference string,
the completed flag, and the timestamp (a BigInt converted with Number). -/
structure ChainTask where
  ipfsHash : String
  completed : Bool
  timestamp : ℕ
deriving DecidableEq

structure FormattedTask where
  id : ℕ
  text : String
  completed : Bool
  createdAt : String
  timestamp : ℕ
  status : String
deriving DecidableEq

def formatTask (dateFmt : ℕ → String) (index : ℕ) (task : ChainTask) : FormattedTask :=
  { id := index
    text := if task.ipfsHash.isEmpty then "Task " ++ toString (index + 1) else task.ipfsHash
    completed := task.completed
    createdAt := _formatDate dateFmt task.timestamp
    timestamp := task.timestamp
    status := if task.completed then "Completed" else "Pending" }

def getTasks (s : ServiceState) (dateFmt : ℕ → String)
    (tasksResult : Except String (List ChainTask)) :
    Except String (List FormattedTask) × List ChainCall × ServiceState :=
  if !(_isReady s) then
    (.error "Please connect your wallet first to view your tasks", [], s)
  else
    match tasksResult with
    | .error _ => (.error "Unable to load your tasks. Please try again.", [.getTasksCall], s)
    | .ok tasks => (.ok (tasks.mapIdx (formatTask dateFmt)), [.getTasksCall], s)

end W3

/- The IPFS-enabled variant of the service (part_001): addTask uploads the
   task object first, getTasks resolves each stored reference. -/

namespace W3I

structure AddTaskSuccess where
  transactionHash : String
  ipfsHash : String
  message : String
deriving DecidableEq

/-- addTask of part_001 (lines 306 to 349): guard readiness and non-empty
text, build the task object, upload it (total, possibly degraded), submit the
returned reference to the contract, then await confirmation. The createdAt
string is the wall-clock ISO timestamp, supplied by the environment. -/
def addTask (s : W3.ServiceState) (pin : PinataResponse) (env : W3.TxEnv)
    (createdAt : String) (taskText : String) :
    Except String AddTaskSuccess × List W3.ChainCall × W3.ServiceState :=
  if !(W3._isReady s) then
    (.error "Looks like we need to connect your wallet first! That way we know where to save your task.",
     [], s)
  else if taskText.isEmpty || (jsTrim taskText).isEmpty then
    (.error "Hey! Don\x27t forget to write down what your task is about.", [], s)
  else
    let taskData : TaskData := ⟨jsTrim taskText, createdAt, "1.0", "task"⟩
    let ipfsHash := uploadToIPFS pin taskData
    match env.submit with
    | .error e =>
      (.error ("We couldn\x27t save your task right now: " ++ e ++ ". This sometimes happens - please try again!"),
       [.submitAddTask ipfsHash], s)
    | .ok tx =>
      match env.wait with
      | .error e =>
        (.error ("We couldn\x27t save your task right now: " ++ e ++ ". This sometimes happens - please try again!"),
         [.submitAddTask ipfsHash, .txWait], s)
      | .ok _ =>
        (.ok ⟨tx, ipfsHash, "Your task has been successfully saved to both IPFS and the blockchain!"⟩,
         [.submitAddTask ipfsHash, .txWait], s)

structure FormattedTask where
  id : ℕ
  text : String
  ipfsHash : String
  completed : Bool
  createdAt : String
  timestamp : ℕ
  status : String
deriving DecidableEq

/-- The per-task body of getTasks in part_001 (lines 207 to 231): skip
resolution for an empty or whitespace reference, otherwise resolve it and use
its text (falling back to the default label if that text is empty). Also
returns the gateways contacted for this task. -/
def processTask (resp : List GatewayResponse) (dateFmt : ℕ → String)
    (index : ℕ) (task : W3.ChainTask) : FormattedTask × List String :=
  let default := "Task " ++ toString (index + 1)
  let resolved : String × List String :=
    if task.ipfsHash.isEmpty || (jsTrim task.ipfsHash).isEmpty then (default, [])
    else
      let r := fetchFromIPFS resp task.ipfsHash
      (if (ResolveOutcome.text r.1).isEmpty then default else ResolveOutcome.text r.1, r.2)
  ({ id := index
     text := resolved.1
     ipfsHash := task.ipfsHash
     completed := task.completed
     createdAt := W3._formatDate dateFmt task.timestamp
     timestamp := task.timestamp
     status := if task.completed then "Done!" else "Still working on it" }, resolved.2)

/-- getTasks of part_001 (lines 196 to 240). The environment maps each stored
reference to the list of gateway responses for it. -/
def getTasks (s : W3.ServiceState) (dateFmt : ℕ → String)
    (resp : String → List GatewayResponse)
    (tasksResult : Except String (List W3.ChainTask)) :
    Except String (List FormattedTask) × List W3.ChainCall × List String × W3.ServiceState :=
  if !(W3._isReady s) then
    (.error "Hey! We need to connect your wallet first so we know which tasks belong to you.",
     [], [], s)
  else
    match tasksResult with
    | .error _ =>
      (.error "Hmm, we couldn\x27t load your tasks right now. This sometimes happens! Please give it another try.",
       [.getTasksCall], [], s)
    | .ok tasks =>
      let processed := tasks.mapIdx fun i t => processTask (resp t.ipfsHash) dateFmt i t
      (.ok (processed.map Prod.fst), [.getTasksCall], (processed.map Prod.snd).flatten, s)

end W3I

/- Price threshold scaling and display formatting (part_000 and part_002
   orchestrator handlers, and the utils formatPrice). The source computes in
   IEEE-754 binary64 doubles; fpRound below models one binary64 rounding of
   an exact rational, so each arithmetic step of the source appears as an
   explicit rounding. -/

def isDigitChar (c : Char) : Bool := 48 ≤ c.toNat && c.toNat ≤ 57

def digitVal (c : Char) : ℕ := c.toNat - 48

def digitsToNat (l : List Char) : ℕ := l.foldl (fun a c => 10 * a + digitVal c) 0

/-- The exact mathematical value of a decimal threshold string: an integer
part, optionally followed by a dot and a fractional part, with at least one
digit overall. parseFloat evaluates this value and then rounds it to a
binary64 double (jsParseFloat below). -/
def parseDec (s : String) : Option ℚ :=
  let ip := s.data.takeWhile isDigitChar
  match s.data.dropWhile isDigitChar with
  | [] => if ip.isEmpty then none else some (digitsToNat ip)
  | '.' :: fr =>
    if fr.all isDigitChar && (!ip.isEmpty || !fr.isEmpty) then
      some ((digitsToNat ip : ℚ) + (digitsToNat fr : ℚ) / 10 ^ fr.length)
    else none
  | _ => none

/-- Mantissa selection for IEEE-754 binary64 round-to-nearest, ties-to-even:
the magnitude is scaled into mantissa position (clamped at the subnormal
exponent floor -1074), floored, and the fractional part decides the
direction, ties going to the even mantissa. -/
def fpMantissa (q : ℚ) : ℤ :=
  let sc : ℚ := q / 2 ^ (max (Int.log 2 q - 52) (-1074))
  if sc - ⌊sc⌋ < 1 / 2 then ⌊sc⌋
  else if 1 / 2 < sc - ⌊sc⌋ then ⌊sc⌋ + 1
  else if ⌊sc⌋ % 2 = 0 then ⌊sc⌋ else ⌊sc⌋ + 1

def fpMag (q : ℚ) : ℚ := (fpMantissa q : ℚ) * 2 ^ (max (Int.log 2 q - 52) (-1074))

/-- One IEEE-754 binary64 rounding of an exact rational: round to nearest,
ties to even, subnormals clamped at 2^-1074. A magnitude that rounds to
2^1024 or beyond is mapped to the sentinel 2^1024 (Infinity is not a finite
double), so fpRound q = q holds exactly when q is a finite double value. -/
def fpRound (q : ℚ) : ℚ :=
  if q = 0 then 0
  else if q < 0 then
    if (2 : ℚ) ^ (1024 : ℤ) ≤ fpMag (-q) then -(2 : ℚ) ^ (1024 : ℤ) else -fpMag (-q)
  else if (2 : ℚ) ^ (1024 : ℤ) ≤ fpMag q then (2 : ℚ) ^ (1024 : ℤ) else fpMag q

/-- parseFloat: the exact value of the decimal literal rounded to the
nearest binary64 double. -/
def jsParseFloat (s : String) : Option ℚ := (parseDec s).map fpRound

/-- JavaScript Math.round on the exact value of its argument: the nearest
integral value, ties toward the larger; that is the floor of x + 1/2. -/
def jsRound (q : ℚ) : ℤ := ⌊q + 1 / 2⌋

/-- parseInt: the leading run of decimal digits, NaN (none) when there is
none. -/
def jsParseInt (s : String) : Option ℤ :=
  let ds := s.data.takeWhile isDigitChar
  if ds.isEmpty then none else some (digitsToNat ds)

/-- to12DigitPriceFormat (part_000, lines 98 to 100):
BigInt(Math.round(parseFloat(value) * 1e8)) as the integer value sent on to
the contract: the parsed double is multiplied by 1e8 in binary64 (one more
rounding, 1e8 itself being exactly representable), then Math.round picks the
nearest integer of the resulting double. -/
def to12DigitPriceFormat (value : String) : Option ℤ :=
  (jsParseFloat value).map fun x => jsRound (fpRound (x * 100000000))

/-- The threshold argument the part_000 completeTaskWithPrice handler passes
to the service (line 110). -/
def sentThreshold000 (priceThreshold : String) : Option ℤ :=
  to12DigitPriceFormat priceThreshold

/-- The threshold argument the part_002 completeTaskWithPrice handler passes
to the service (line 99): parseInt of the entered string, unscaled. -/
def sentThreshold002 (priceThreshold : String) : Option ℤ :=
  jsParseInt priceThreshold

/-- ES toFixed(2) on the exact value of a non-negative double x: the integer
n for which n/100 is closest to x, ties to the larger n, rendered with two
digits after the dot. -/
def toFixed2 (x : ℚ) : String :=
  let n := (⌊x * 100 + 1 / 2⌋).toNat
  toString (n / 100) ++ "." ++ (if n % 100 < 10 then "0" else "") ++ toString (n % 100)

/-- formatPrice (part_000, lines 132 to 135): (price / 1e8).toFixed(2); the
division is one binary64 rounding of the non-negative contract price, and
toFixed(2) then renders the exact value of that double to the nearest
hundredth. -/
def formatPrice (price : ℕ) : String :=
  toFixed2 (fpRound ((price : ℚ) / 100000000))

/-- The spec-side description of the display: the contract-returned integer
divided by 10^8 exactly, rounded to the nearest hundredth, printed with two
decimal places. Stated independently of formatPrice for the refinement
claim. -/
def displayOfContractPrice (p : ℕ) : String :=
  let m := (round ((p : ℚ) / 100000000 * 100)).toNat
  toString (m / 100) ++ "." ++ (if m % 100 < 10 then "0" else "") ++ toString (m % 100)

/- Helper lemmas. -/

theorem infixOfAux_iff (sub l : List Char) : infixOfAux sub l = true ↔ sub <:+: l := by
  induction l with
  | nil => simp [infixOfAux, List.isEmpty_iff, List.infix_nil]
  | cons c cs ih => simp [infixOfAux, ih, List.isPrefixOf_iff_prefix, List.infix_cons_iff]

theorem jsIncludes_append (p e q : String) : jsIncludes (p ++ e ++ q) e = true := by
  rw [jsIncludes, infixOfAux_iff]
  exact ⟨p.data, q.data, by simp [String.data_append]⟩

/-- The failure, if any, a two-phase transaction environment produces: the
submission error, or else the confirmation error. -/
def underlyingFailure (env : W3.TxEnv) : Option String :=
  match env.submit with
  | .error e => some e
  | .ok _ =>
    match env.wait with
    | .error e => some e
    | .ok _ => none

/- Claims. -/

/-- C3: every chain-mutating operation (addTask, completeTaskIfPriceAbove,
addAdmin) invoked while no ready session exists fails with the not-connected
error, performs no contract or network call, and leaves the client state
unchanged. -/
theorem c3_mutations_require_connection (s : W3.ServiceState) (env : W3.TxEnv)
    (txt addr : String) (idx thr : ℤ)
    (h : W3._isReady s = false) :
    W3.addTask s env txt = (.error "Please connect your wallet first to add tasks", [], s) ∧
    W3.completeTaskIfPriceAbove s env idx thr =
      (.error "Please connect your wallet first", [], s) ∧
    W3.addAdmin s env addr = (.error "Please connect your wallet first", [], s) := by
  refine ⟨?_, ?_, ?_⟩ <;>
    simp [W3.addTask, W3.completeTaskIfPriceAbove, W3.addAdmin, h]

theorem c3_mutations_require_connection_witness :
    W3._isReady W3.initialState = false ∧
    W3.addTask W3.initialState ⟨.ok "0x1", .ok ()⟩ "buy milk" =
      (.error "Please connect your wallet first to add tasks", [], W3.initialState) ∧
    W3.completeTaskIfPriceAbove W3.initialState ⟨.ok "0x1", .ok ()⟩ 0 2500 =
      (.error "Please connect your wallet first", [], W3.initialState) ∧
    W3.addAdmin W3.initialState ⟨.ok "0x1", .ok ()⟩ "0xabc" =
      (.error "Please connect your wallet first", [], W3.initialState) := by
  have h := c3_mutations_require_connection W3.initialState ⟨.ok "0x1", .ok ()⟩
    "buy milk" "0xabc" 0 2500 (by decide)
  exact ⟨by decide, h.1, h.2.1, h.2.2⟩

/-- C10: disconnect() clears provider, signer, contract, account and the
initialization flag, restoring exactly the freshly-constructed state:
isConnected is false, getAccount and getFormattedAccount are null, and every
subsequent chain operation fails the readiness check. -/
theorem c10_disconnect_resets (s : W3.ServiceState) :
    W3.disconnect s = W3.initialState ∧
    W3.isConnected (W3.disconnect s) = false ∧
    W3.getAccount (W3.disconnect s) = none ∧
    W3.getFormattedAccount (W3.disconnect s) = none ∧
    W3._isReady (W3.disconnect s) = false ∧
    (∀ env txt, W3.addTask (W3.disconnect s) env txt =
      (.error "Please connect your wallet first to add tasks", [], W3.initialState)) ∧
    (∀ env idx thr, W3.completeTaskIfPriceAbove (W3.disconnect s) env idx thr =
      (.error "Please connect your wallet first", [], W3.initialState)) ∧
    (∀ env addr, W3.addAdmin (W3.disconnect s) env addr =
      (.error "Please connect your wallet first", [], W3.initialState)) ∧
    (∀ dateFmt tr, W3.getTasks (W3.disconnect s) dateFmt tr =
      (.error "Please connect your wallet first to view your tasks", [], W3.initialState)) := by
  refine ⟨rfl, rfl, rfl, rfl, rfl, ?_, ?_, ?_, ?_⟩ <;> intros <;>
    simp [W3.disconnect, W3.initialState, W3.addTask, W3.completeTaskIfPriceAbove,
      W3.addAdmin, W3.getTasks, W3._isReady]

theorem unable_ne_only (e : String) :
    "Unable to add admin: " ++ e ≠ "Only existing admins can add new admins" := by
  intro h
  have h2 := congrArg String.data h
  rw [String.data_append] at h2
  have h3 := congrArg List.head? h2
  rw [List.head?_append,
      show "Unable to add admin: ".data.head? = some 'U' from by decide,
      show "Only existing admins can add new admins".data.head? = some 'O' from by decide] at h3
  simp [Option.or] at h3

/-- C9: when addAdmin fails, the distinct Unauthorized message
("Only existing admins can add new admins") is surfaced exactly when the
underlying chain failure is a revert; any other failure surfaces the generic
message carrying the underlying reason; without a failure the call succeeds. -/
theorem c9_addAdmin_unauthorized (s : W3.ServiceState) (env : W3.TxEnv) (addr : String)
    (h : W3._isReady s = true) (ha : addr.isEmpty = false) :
    ((W3.addAdmin s env addr).1 = .error "Only existing admins can add new admins" ↔
      ∃ e, underlyingFailure env = some e ∧ jsIncludes e "revert" = true) ∧
    (∀ e, underlyingFailure env = some e → jsIncludes e "revert" = false →
      (W3.addAdmin s env addr).1 = .error ("Unable to add admin: " ++ e)) ∧
    (underlyingFailure env = none →
      ∃ tx, env.submit = .ok tx ∧
        (W3.addAdmin s env addr).1 = .ok ⟨tx, addr ++ " is now an admin"⟩) := by
  obtain ⟨sub, wt⟩ := env
  cases sub with
  | error e =>
    by_cases hr : jsIncludes e "revert" = true
    · simp [W3.addAdmin, W3.addAdminErr, underlyingFailure, h, ha, hr]
    · simp only [Bool.not_eq_true] at hr
      simp [W3.addAdmin, W3.addAdminErr, underlyingFailure, h, ha, hr, unable_ne_only]
  | ok tx =>
    cases wt with
    | error e =>
      by_cases hr : jsIncludes e "revert" = true
      · simp [W3.addAdmin, W3.addAdminErr, underlyingFailure, h, ha, hr]
      · simp only [Bool.not_eq_true] at hr
        simp [W3.addAdmin, W3.addAdminErr, underlyingFailure, h, ha, hr, unable_ne_only]
    | ok u => simp [W3.addAdmin, W3.addAdminErr, underlyingFailure, h, ha]

theorem c9_addAdmin_unauthorized_witness :
    (W3.addAdmin ⟨false, false, true, some "0xdead", true⟩
      ⟨.error "execution reverted: only admin", .ok ()⟩ "0xabc").1 =
      .error "Only existing admins can add new admins" :=
  (c9_addAdmin_unauthorized ⟨false, false, true, some "0xdead", true⟩
    ⟨.error "execution reverted: only admin", .ok ()⟩ "0xabc" (by decide) (by decide)).1.mpr
    ⟨"execution reverted: only admin", rfl, by decide⟩

/-- C4 (amended): each state-changing gateway operation (addTask,
completeTaskIfPriceAbove, addAdmin) submits, then awaits on-chain
confirmation; a success result is only returned when both the submission and
the confirmation succeeded, with the trace showing submit before wait. Given
a ready session and valid arguments, addTask and completeTaskIfPriceAbove
surface any chain failure as an error message containing the underlying
reason; addAdmin does so for non-revert failures, while a revert failure is
mapped to the fixed Unauthorized message instead of the underlying reason. -/
theorem c4_two_phase (s : W3.ServiceState) (env : W3.TxEnv) (pin : PinataResponse)
    (createdAt txt addr : String) (idx thr : ℤ) :
    (∀ res, (W3.addTask s env txt).1 = .ok res →
      env.submit = .ok res.transactionHash ∧ env.wait = .ok () ∧
      (W3.addTask s env txt).2.1 = [.submitAddTask (jsTrim txt), .txWait]) ∧
    (∀ res, (W3.completeTaskIfPriceAbove s env idx thr).1 = .ok res →
      env.submit = .ok res.transactionHash ∧ env.wait = .ok () ∧
      (W3.completeTaskIfPriceAbove s env idx thr).2.1 =
        [.submitCompleteTask idx thr, .txWait]) ∧
    (∀ res, (W3I.addTask s pin env createdAt txt).1 = .ok res →
      env.submit = .ok res.transactionHash ∧ env.wait = .ok () ∧
      (W3I.addTask s pin env createdAt txt).2.1 =
        [.submitAddTask res.ipfsHash, .txWait]) ∧
    (W3._isReady s = true → txt.isEmpty = false → (jsTrim txt).isEmpty = false →
      ∀ e, underlyingFailure env = some e →
        ∃ m, (W3.addTask s env txt).1 = .error m ∧ jsIncludes m e = true) ∧
    (W3._isReady s = true → ¬(idx < 0) → ¬(thr ≤ 0) →
      ∀ e, underlyingFailure env = some e →
        ∃ m, (W3.completeTaskIfPriceAbove s env idx thr).1 = .error m ∧
          jsIncludes m e = true) ∧
    (W3._isReady s = true → txt.isEmpty = false → (jsTrim txt).isEmpty = false →
      ∀ e, underlyingFailure env = some e →
        ∃ m, (W3I.addTask s pin env createdAt txt).1 = .error m ∧ jsIncludes m e = true) ∧
    (∀ res, (W3.addAdmin s env addr).1 = .ok res →
      env.submit = .ok res.transactionHash ∧ env.wait = .ok () ∧
      (W3.addAdmin s env addr).2.1 = [.submitAddAdmin addr, .txWait]) ∧
    (W3._isReady s = true → addr.isEmpty = false →
      ∀ e, underlyingFailure env = some e → jsIncludes e "revert" = false →
        ∃ m, (W3.addAdmin s env addr).1 = .error m ∧ jsIncludes m e = true) ∧
    (W3._isReady s = true → addr.isEmpty = false →
      ∀ e, underlyingFailure env = some e → jsIncludes e "revert" = true →
        (W3.addAdmin s env addr).1 =
          .error "Only existing admins can add new admins") := by
  obtain ⟨sub, wt⟩ := env
  refine ⟨?_, ?_, ?_, ?_, ?_, ?_, ?_, ?_, ?_⟩
  · intro res hres
    obtain ⟨rtx, rmsg⟩ := res
    by_cases h1 : W3._isReady s
    · by_cases h2 : (txt.isEmpty || (jsTrim txt).isEmpty) = true
      · simp [W3.addTask, h1, h2] at hres
      · simp only [Bool.not_eq_true] at h2
        cases sub with
        | error e => simp [W3.addTask, h1, h2] at hres
        | ok tx =>
          cases wt with
          | error e => simp [W3.addTask, h1, h2] at hres
          | ok u =>
            simp only [W3.addTask, h1, h2] at hres
            simp only [Bool.false_eq_true, if_false, Bool.not_true] at hres
            simp at hres
            obtain ⟨h4, h5⟩ := hres
            subst h4
            simp [W3.addTask, h1, h2]
    · simp only [Bool.not_eq_true] at h1
      simp [W3.addTask, h1] at hres
  · intro res hres
    obtain ⟨rtx, rmsg⟩ := res
    by_cases h1 : W3._isReady s
    · by_cases h2 : idx < 0
      · simp [W3.completeTaskIfPriceAbove, h1, h2] at hres
      · by_cases h3 : thr ≤ 0
        · simp [W3.completeTaskIfPriceAbove, h1, h2, h3] at hres
        · cases sub with
          | error e => simp [W3.completeTaskIfPriceAbove, h1, h2, h3] at hres
          | ok tx =>
            cases wt with
            | error e => simp [W3.completeTaskIfPriceAbove, h1, h2, h3] at hres
            | ok u =>
              simp only [W3.completeTaskIfPriceAbove, h1, h2, h3] at hres
              simp at hres
              obtain ⟨h4, h5⟩ := hres
              subst h4
              simp [W3.completeTaskIfPriceAbove, h1, h2, h3]
    · simp only [Bool.not_eq_true] at h1
      simp [W3.completeTaskIfPriceAbove, h1] at hres
  · intro res hres
    obtain ⟨rtx, rhash, rmsg⟩ := res
    by_cases h1 : W3._isReady s
    · by_cases h2 : (txt.isEmpty || (jsTrim txt).isEmpty) = true
      · simp [W3I.addTask, h1, h2] at hres
      · simp only [Bool.not_eq_true] at h2
        cases sub with
        | error e => simp [W3I.addTask, h1, h2] at hres
        | ok tx =>
          cases wt with
          | error e => simp [W3I.addTask, h1, h2] at hres
          | ok u =>
            simp only [W3I.addTask, h1, h2] at hres
            simp at hres
            obtain ⟨h4, h5, h6⟩ := hres
            subst h4
            subst h5
            simp [W3I.addTask, h1, h2]
    · simp only [Bool.not_eq_true] at h1
      simp [W3I.addTask, h1] at hres
  · intro h1 h2 h3 e he
    cases sub with
    | error e2 =>
      have h4 : e2 = e := by simpa [underlyingFailure] using he
      exact ⟨"Unable to save task: " ++ e,
        by simp [W3.addTask, h1, h2, h3, h4],
        by simpa [String.append_empty] using jsIncludes_append "Unable to save task: " e ""⟩
    | ok tx =>
      cases wt with
      | error e2 =>
        have h4 : e2 = e := by simpa [underlyingFailure] using he
        exact ⟨"Unable to save task: " ++ e,
          by simp [W3.addTask, h1, h2, h3, h4],
          by simpa [String.append_empty] using jsIncludes_append "Unable to save task: " e ""⟩
      | ok u => simp [underlyingFailure] at he
  · intro h1 h2 h3 e he
    cases sub with
    | error e2 =>
      have h4 : e2 = e := by simpa [underlyingFailure] using he
      exact ⟨"Unable to set up automatic task completion: " ++ e,
        by simp [W3.completeTaskIfPriceAbove, h1, h2, h3, h4],
        by simpa [String.append_empty] using
          jsIncludes_append "Unable to set up automatic task completion: " e ""⟩
    | ok tx =>
      cases wt with
      | error e2 =>
        have h4 : e2 = e := by simpa [underlyingFailure] using he
        exact ⟨"Unable to set up automatic task completion: " ++ e,
          by simp [W3.completeTaskIfPriceAbove, h1, h2, h3, h4],
          by simpa [String.append_empty] using
            jsIncludes_append "Unable to set up automatic task completion: " e ""⟩
      | ok u => simp [underlyingFailure] at he
  · intro h1 h2 h3 e he
    cases sub with
    | error e2 =>
      have h4 : e2 = e := by simpa [underlyingFailure] using he
      exact ⟨"We couldn\x27t save your task right now: " ++ e ++
        ". This sometimes happens - please try again!",
        by simp [W3I.addTask, h1, h2, h3, h4],
        jsIncludes_append "We couldn\x27t save your task right now: " e
          ". This sometimes happens - please try again!"⟩
    | ok tx =>
      cases wt with
      | error e2 =>
        have h4 : e2 = e := by simpa [underlyingFailure] using he
        exact ⟨"We couldn\x27t save your task right now: " ++ e ++
          ". This sometimes happens - please try again!",
          by simp [W3I.addTask, h1, h2, h3, h4],
          jsIncludes_append "We couldn\x27t save your task right now: " e
            ". This sometimes happens - please try again!"⟩
      | ok u => simp [underlyingFailure] at he
  · intro res hres
    obtain ⟨rtx, rmsg⟩ := res
    by_cases h1 : W3._isReady s
    · by_cases h2 : addr.isEmpty = true
      · simp [W3.addAdmin, h1, h2] at hres
      · simp only [Bool.not_eq_true] at h2
        cases sub with
        | error e => simp [W3.addAdmin, h1, h2] at hres
        | ok tx =>
          cases wt with
          | error e => simp [W3.addAdmin, h1, h2] at hres
          | ok u =>
            simp only [W3.addAdmin, h1, h2] at hres
            simp at hres
            obtain ⟨h4, h5⟩ := hres
            subst h4
            simp [W3.addAdmin, h1, h2]
    · simp only [Bool.not_eq_true] at h1
      simp [W3.addAdmin, h1] at hres
  · intro h1 h2 e he hr
    cases sub with
    | error e2 =>
      have h4 : e2 = e := by simpa [underlyingFailure] using he
      refine ⟨"Unable to add admin: " ++ e, ?_,
        by simpa [String.append_empty] using jsIncludes_append "Unable to add admin: " e ""⟩
      simp [W3.addAdmin, W3.addAdminErr, h1, h2, h4, hr]
    | ok tx =>
      cases wt with
      | error e2 =>
        have h4 : e2 = e := by simpa [underlyingFailure] using he
        refine ⟨"Unable to add admin: " ++ e, ?_,
          by simpa [String.append_empty] using jsIncludes_append "Unable to add admin: " e ""⟩
        simp [W3.addAdmin, W3.addAdminErr, h1, h2, h4, hr]
      | ok u => simp [underlyingFailure] at he
  · intro h1 h2 e he hr
    cases sub with
    | error e2 =>
      have h4 : e2 = e := by simpa [underlyingFailure] using he
      simp [W3.addAdmin, W3.addAdminErr, h1, h2, h4, hr]
    | ok tx =>
      cases wt with
      | error e2 =>
        have h4 : e2 = e := by simpa [underlyingFailure] using he
        simp [W3.addAdmin, W3.addAdminErr, h1, h2, h4, hr]
      | ok u => simp [underlyingFailure] at he

/-- C4 counterexample: addAdmin does not propagate the underlying failure
reason when the chain call reverts: the surfaced message is the fixed
Unauthorized message, which does not contain the underlying revert reason. -/
theorem c4_two_phase_counterexample :
    (W3.addAdmin ⟨false, false, true, some "0xdead", true⟩
      ⟨.error "execution reverted: caller is not admin", .ok ()⟩ "0xabc").1 =
      .error "Only existing admins can add new admins" ∧
    jsIncludes "Only existing admins can add new admins"
      "execution reverted: caller is not admin" = false := by
  exact ⟨by decide, by decide⟩

theorem c4_two_phase_witness :
    ((W3.addTask ⟨false, false, true, some "0xdead", true⟩ ⟨.ok "0xfeed", .ok ()⟩
        "buy milk").2.1 = [.submitAddTask (jsTrim "buy milk"), .txWait]) ∧
    (∃ m, (W3.addTask ⟨false, false, true, some "0xdead", true⟩
        ⟨.error "insufficient funds", .ok ()⟩ "buy milk").1 = .error m ∧
      jsIncludes m "insufficient funds" = true) ∧
    ((W3.addAdmin ⟨false, false, true, some "0xdead", true⟩ ⟨.ok "0xfeed", .ok ()⟩
        "0xabc").2.1 = [.submitAddAdmin "0xabc", .txWait]) := by
  refine ⟨?_, ?_, ?_⟩
  · exact ((c4_two_phase ⟨false, false, true, some "0xdead", true⟩ ⟨.ok "0xfeed", .ok ()⟩
      .httpError "t" "buy milk" "0xabc" 0 1).1
      ⟨"0xfeed", "Your task has been added to the blockchain!"⟩ rfl).2.2
  · exact (c4_two_phase ⟨false, false, true, some "0xdead", true⟩
      ⟨.error "insufficient funds", .ok ()⟩ .httpError "t" "buy milk" "0xabc" 0 1).2.2.2.1
      (by decide) (by decide) (by decide) "insufficient funds" rfl
  · exact ((c4_two_phase ⟨false, false, true, some "0xdead", true⟩ ⟨.ok "0xfeed", .ok ()⟩
      .httpError "t" "buy milk" "0xabc" 0 1).2.2.2.2.2.2.1
      ⟨"0xfeed", "0xabc is now an admin"⟩ (by decide)).2.2

/-- C5: if the wallet is on a network other than Sepolia (chain id 11155111),
_ensureCorrectNetwork issues exactly one switch request with the hex chain id
0xaa36a7; exactly when that switch fails with the unknown-network code 4902,
exactly one add-network request follows carrying the documented name, RPC
endpoint, native currency metadata, and block-explorer URL; on the required
network no wallet request is made. -/
theorem c5_network_switch (env : W3.NetworkEnv) :
    (env.chainId = 11155111 → (W3._ensureCorrectNetwork env).2 = []) ∧
    (env.chainId ≠ 11155111 →
      ((W3._ensureCorrectNetwork env).2.filter W3.WalletReq.isSwitch).length = 1 ∧
      (W3._ensureCorrectNetwork env).2.head? = some (.switchChain "0xaa36a7") ∧
      (((W3._ensureCorrectNetwork env).2.filter W3.WalletReq.isAdd).length = 1 ↔
        ∃ se, env.switchResult = .error se ∧ se.code = some 4902) ∧
      ((W3._ensureCorrectNetwork env).2.filter W3.WalletReq.isAdd).length ≤ 1 ∧
      (∀ r ∈ (W3._ensureCorrectNetwork env).2, W3.WalletReq.isAdd r = true →
        r = W3.sepoliaAddParams)) := by
  obtain ⟨cid, sw, ad⟩ := env
  constructor
  · intro h
    simp only at h
    simp [W3._ensureCorrectNetwork, h]
  · intro h
    simp only at h
    cases sw with
    | ok u =>
      simp [W3._ensureCorrectNetwork, h, W3.WalletReq.isSwitch, W3.WalletReq.isAdd,
        W3.sepoliaAddParams]
    | error se =>
      by_cases hc : se.code = some 4902
      · cases ad <;>
          simp [W3._ensureCorrectNetwork, h, hc, W3.WalletReq.isSwitch, W3.WalletReq.isAdd,
            W3.sepoliaAddParams]
      · simp [W3._ensureCorrectNetwork, h, hc, W3.WalletReq.isSwitch, W3.WalletReq.isAdd,
          W3.sepoliaAddParams]

theorem c5_network_switch_witness :
    ((W3._ensureCorrectNetwork ⟨11155111, .ok (), .ok ()⟩).2 = []) ∧
    ((W3._ensureCorrectNetwork ⟨1, .error ⟨some 4902, "Unrecognized chain"⟩, .ok ()⟩).2.filter
      W3.WalletReq.isSwitch).length = 1 ∧
    (((W3._ensureCorrectNetwork ⟨1, .error ⟨some 4902, "Unrecognized chain"⟩, .ok ()⟩).2.filter
      W3.WalletReq.isAdd).length = 1) := by
  refine ⟨(c5_network_switch ⟨11155111, .ok (), .ok ()⟩).1 rfl, ?_, ?_⟩
  · exact ((c5_network_switch ⟨1, .error ⟨some 4902, "Unrecognized chain"⟩, .ok ()⟩).2
      (by decide)).1
  · exact ((c5_network_switch ⟨1, .error ⟨some 4902, "Unrecognized chain"⟩, .ok ()⟩).2
      (by decide)).2.2.1.mpr ⟨⟨some 4902, "Unrecognized chain"⟩, rfl, rfl⟩

/-- C8: listTasks returns exactly one entry per on-chain task, in the
contract's index order (entry ids equal to positions), with completed and
timestamp faithfully mapped, in both service variants. -/
theorem c8_getTasks_mapping (s : W3.ServiceState) (dateFmt : ℕ → String)
    (ts : List W3.ChainTask) (resp : String → List GatewayResponse)
    (h : W3._isReady s = true) :
    (∃ fts : List W3.FormattedTask,
      W3.getTasks s dateFmt (.ok ts) = (.ok fts, [.getTasksCall], s) ∧
      fts.length = ts.length ∧
      ∀ (i : ℕ) (t : W3.ChainTask), ts[i]? = some t →
        ∃ ft : W3.FormattedTask, fts[i]? = some ft ∧
          ft.id = i ∧ ft.completed = t.completed ∧ ft.timestamp = t.timestamp) ∧
    (∃ fts : List W3I.FormattedTask,
      (W3I.getTasks s dateFmt resp (.ok ts)).1 = .ok fts ∧
      fts.length = ts.length ∧
      ∀ (i : ℕ) (t : W3.ChainTask), ts[i]? = some t →
        ∃ ft : W3I.FormattedTask, fts[i]? = some ft ∧
          ft.id = i ∧ ft.completed = t.completed ∧ ft.timestamp = t.timestamp) := by
  constructor
  · refine ⟨ts.mapIdx (W3.formatTask dateFmt), ?_, ?_, ?_⟩
    · simp [W3.getTasks, h]
    · simp
    · intro i t ht
      refine ⟨W3.formatTask dateFmt i t, ?_, rfl, rfl, rfl⟩
      simp [List.getElem?_mapIdx, ht]
  · refine ⟨(ts.mapIdx fun i t => W3I.processTask (resp t.ipfsHash) dateFmt i t).map Prod.fst,
      ?_, ?_, ?_⟩
    · simp [W3I.getTasks, h]
    · simp
    · intro i t ht
      refine ⟨(W3I.processTask (resp t.ipfsHash) dateFmt i t).1, ?_, rfl, rfl, rfl⟩
      simp [List.getElem?_mapIdx, ht]

theorem c8_getTasks_mapping_witness :
    ∃ fts : List W3.FormattedTask,
      W3.getTasks ⟨false, false, true, some "0xdead", true⟩ (fun _ => "mock date")
      (.ok [⟨"QmFirst", false, 100⟩, ⟨"QmSecond", true, 200⟩, ⟨"QmThird", false, 300⟩]) =
      (.ok fts, [.getTasksCall], ⟨false, false, true, some "0xdead", true⟩) ∧
    fts.length = 3 ∧
    ∀ (i : ℕ) (t : W3.ChainTask), ([⟨"QmFirst", false, 100⟩, ⟨"QmSecond", true, 200⟩,
        ⟨"QmThird", false, 300⟩] : List W3.ChainTask)[i]? = some t →
      ∃ ft : W3.FormattedTask, fts[i]? = some ft ∧
        ft.id = i ∧ ft.completed = t.completed ∧ ft.timestamp = t.timestamp :=
  (c8_getTasks_mapping ⟨false, false, true, some "0xdead", true⟩ (fun _ => "mock date")
    [⟨"QmFirst", false, 100⟩, ⟨"QmSecond", true, 200⟩, ⟨"QmThird", false, 300⟩]
    (fun _ => []) (by decide)).1

/- Hex digest well-formedness helpers for the upload fallback. -/

def isHexDigit (c : Char) : Bool :=
  (48 ≤ c.toNat && c.toNat ≤ 57) || (97 ≤ c.toNat && c.toNat ≤ 102)

theorem hexChar_isHexDigit : ∀ m < 16, isHexDigit (hexChar m) = true := by decide

theorem byteHex_chars (b : ℕ) : ∀ c ∈ byteHex b, isHexDigit c = true := by
  intro c hc
  simp only [byteHex, List.mem_cons, List.not_mem_nil, or_false] at hc
  rcases hc with rfl | rfl
  · exact hexChar_isHexDigit _ (Nat.mod_lt _ (by omega))
  · exact hexChar_isHexDigit _ (Nat.mod_lt _ (by omega))

theorem byteHex_flatten_length (bs : List ℕ) :
    ((bs.map byteHex).flatten).length = 2 * bs.length := by
  induction bs with
  | nil => rfl
  | cons b rest ih => simp [byteHex, ih]; omega

theorem sha256Bytes_length (msg : List ℕ) : (sha256Bytes msg).length = 32 := by
  simp [sha256Bytes, wordBytes]

theorem sha256Hex_length (msg : List ℕ) : (sha256Hex msg).data.length = 64 := by
  show ((List.map byteHex (sha256Bytes msg)).flatten).length = 64
  rw [byteHex_flatten_length, sha256Bytes_length]

theorem sha256Hex_chars (msg : List ℕ) :
    ∀ c ∈ (sha256Hex msg).data, isHexDigit c = true := by
  intro c hc
  simp only [sha256Hex, bytesToHex, List.mem_flatten, List.mem_map] at hc
  obtain ⟨l, ⟨b, _, rfl⟩, hcl⟩ := hc
  exact byteHex_chars b c hcl

theorem jsStartsWith_append (p t : String) : jsStartsWith (p ++ t) p = true := by
  simp [jsStartsWith, String.data_append, List.isPrefixOf_iff_prefix]

theorem append_ne_empty_left (s t : String) (hs : s.data ≠ []) : s ++ t ≠ "" := by
  intro h
  have h2 := congrArg String.data h
  rw [String.data_append, show ("" : String).data = [] from rfl, List.append_eq_nil] at h2
  exact hs h2.1

/-- C7: whenever the pinning request fails (non-success response or network
error), upload returns the string "fallback_" followed by the first 32
hexadecimal characters of the SHA-256 digest of the JSON serialization of the
content; the reference is always a usable non-empty string (length 41, marked
by the prefix, hex tail), and equal serialized content yields equal fallback
references. -/
theorem c7_upload_fallback (d d2 : TaskData) (pr pr2 : PinataResponse)
    (h : pr = .httpError ∨ pr = .netError) :
    uploadToIPFS pr d =
      "fallback_" ++ jsTake (sha256Hex (utf8Encode (stringifyTaskData d))) 32 ∧
    (uploadToIPFS pr d).data.length = 41 ∧
    uploadToIPFS pr d ≠ "" ∧
    jsStartsWith (uploadToIPFS pr d) "fallback_" = true ∧
    (∀ c ∈ (uploadToIPFS pr d).data.drop 9, isHexDigit c = true) ∧
    (pr2 = .httpError ∨ pr2 = .netError → stringifyTaskData d = stringifyTaskData d2 →
      uploadToIPFS pr d = uploadToIPFS pr2 d2) := by
  have hu : uploadToIPFS pr d =
      "fallback_" ++ jsTake (sha256Hex (utf8Encode (stringifyTaskData d))) 32 := by
    rcases h with rfl | rfl <;> rfl
  refine ⟨hu, ?_, ?_, ?_, ?_, ?_⟩
  · rw [hu, String.data_append]
    have h64 : (sha256Hex (utf8Encode (stringifyTaskData d))).length = 64 := sha256Hex_length _
    simp [jsTake, List.length_take]
    omega
  · rw [hu]
    exact append_ne_empty_left _ _ (by decide)
  · rw [hu]
    exact jsStartsWith_append _ _
  · rw [hu, String.data_append]
    intro c hc
    rw [show ((9 : ℕ) = ("fallback_" : String).data.length) from by decide,
      List.drop_left] at hc
    exact sha256Hex_chars _ c (List.mem_of_mem_take hc)
  · intro h2 hser
    have hu2 : uploadToIPFS pr2 d2 =
        "fallback_" ++ jsTake (sha256Hex (utf8Encode (stringifyTaskData d2))) 32 := by
      rcases h2 with rfl | rfl <;> rfl
    rw [hu, hu2, hser]

theorem c7_upload_fallback_witness :
    uploadToIPFS .httpError ⟨"buy milk", "2024-05-01", "1.0", "task"⟩ =
      "fallback_" ++ jsTake (sha256Hex (utf8Encode
        (stringifyTaskData ⟨"buy milk", "2024-05-01", "1.0", "task"⟩))) 32 ∧
    uploadToIPFS .httpError ⟨"buy milk", "2024-05-01", "1.0", "task"⟩ =
      uploadToIPFS .netError ⟨"buy milk", "2024-05-01", "1.0", "task"⟩ := by
  have h := c7_upload_fallback ⟨"buy milk", "2024-05-01", "1.0", "task"⟩
    ⟨"buy milk", "2024-05-01", "1.0", "task"⟩ .httpError .netError (Or.inl rfl)
  exact ⟨h.1, h.2.2.2.2.2 (Or.inr rfl) rfl⟩

/- Gateway loop lemmas. -/

theorem tryGateways_trace_subset (l : List (String × GatewayResponse)) (last : Option String) :
    ∀ g ∈ (tryGateways l last).2, g ∈ l.map Prod.fst := by
  induction l generalizing last with
  | nil => simp [tryGateways]
  | cons p rest ih =>
    obtain ⟨g0, r0⟩ := p
    cases r0 with
    | ok d => simp [tryGateways]
    | error e =>
      intro g hg
      simp only [tryGateways] at hg
      rcases List.mem_cons.mp hg with rfl | hg2
      · simp
      · simp only [List.map_cons, List.mem_cons]
        exact Or.inr (ih (some e) g hg2)

theorem tryGateways_trace_ne_nil (l : List (String × GatewayResponse)) (last : Option String)
    (hl : l ≠ []) : (tryGateways l last).2 ≠ [] := by
  cases l with
  | nil => exact absurd rfl hl
  | cons p rest =>
    obtain ⟨g0, r0⟩ := p
    cases r0 with
    | ok d => simp [tryGateways]
    | error e => simp [tryGateways]

theorem fetchFromIPFS_trace (resp : List GatewayResponse) (ref : String) :
    (fetchFromIPFS resp ref).2 = (fetchFromIPFSTry resp ref).2 := by
  rcases htg : (fetchFromIPFSTry resp ref).1 with e | o <;> simp [fetchFromIPFS, htg]

theorem fetchFromIPFSTry_trace (resp : List GatewayResponse) (ref : String)
    (h1 : jsStartsWith ref "fallback_" = false) (h2 : isValidIPFSHash ref = true) :
    (fetchFromIPFSTry resp ref).2 = (tryGateways (ipfsGateways.zip resp) none).2 := by
  rcases htg : (tryGateways (ipfsGateways.zip resp) none).1 with e | d <;>
    simp [fetchFromIPFSTry, h1, h2, htg]

/-- C6: resolve classifies every reference by shape and only genuine
content-store addresses trigger network retrieval: a task whose stored
reference is empty (or whitespace) never reaches resolution and gets the
placeholder label; a reference prefixed fallback_ returns the locally-saved
marker with no gateway contacted; a reference failing the shape check
(alphanumeric, length at least 46) is returned as legacy plain text with no
gateway contacted; a reference passing the shape check is fetched from the
gateway endpoints. -/
theorem c6_resolve_classification (resp : List GatewayResponse) (ref : String)
    (dateFmt : ℕ → String) (task : W3.ChainTask) (i : ℕ) :
    ((jsTrim task.ipfsHash).isEmpty = true →
      (W3I.processTask resp dateFmt i task).1.text = "Task " ++ toString (i + 1) ∧
      (W3I.processTask resp dateFmt i task).2 = []) ∧
    (jsStartsWith ref "fallback_" = true →
      fetchFromIPFS resp ref =
        (.fallbackNote ("Task (saved locally: " ++ jsSubstring ref 9 15 ++ "...)"), [])) ∧
    (jsStartsWith ref "fallback_" = false → isValidIPFSHash ref = false →
      fetchFromIPFS resp ref = (.legacy ref, [])) ∧
    (jsStartsWith ref "fallback_" = false → isValidIPFSHash ref = true →
      resp.length = 5 →
      (fetchFromIPFS resp ref).2 ≠ [] ∧
      ∀ g ∈ (fetchFromIPFS resp ref).2, g ∈ ipfsGateways) := by
  refine ⟨?_, ?_, ?_, ?_⟩
  · intro h
    constructor <;> simp [W3I.processTask, h]
  · intro h
    simp [fetchFromIPFS, fetchFromIPFSTry, h]
  · intro h1 h2
    simp [fetchFromIPFS, fetchFromIPFSTry, h1, h2]
  · intro h1 h2 h5
    have hzlen : (ipfsGateways.zip resp).length = 5 := by
      rw [List.length_zip, h5]
      rfl
    have hznil : ipfsGateways.zip resp ≠ [] := by
      intro hz
      rw [hz] at hzlen
      simp at hzlen
    have hmapfst : (ipfsGateways.zip resp).map Prod.fst = ipfsGateways :=
      List.map_fst_zip _ _ (by rw [h5]; decide)
    rw [fetchFromIPFS_trace, fetchFromIPFSTry_trace resp ref h1 h2]
    refine ⟨tryGateways_trace_ne_nil _ none hznil, ?_⟩
    intro g hg
    have := tryGateways_trace_subset _ none g hg
    rwa [hmapfst] at this

theorem c6_resolve_classification_witness :
    ((W3I.processTask [] (fun _ => "d") 0 ⟨"", false, 0⟩).1.text = "Task 1" ∧
      (W3I.processTask [] (fun _ => "d") 0 ⟨"", false, 0⟩).2 = []) ∧
    (fetchFromIPFS [] "fallback_0123456789abcdef0123456789abcdef" =
      (.fallbackNote ("Task (saved locally: " ++
        jsSubstring "fallback_0123456789abcdef0123456789abcdef" 9 15 ++ "...)"), [])) ∧
    (fetchFromIPFS [] "hello world" = (.legacy "hello world", [])) ∧
    ((fetchFromIPFS [.error "a", .error "b", .error "c", .error "d", .error "e"]
        "QmAAAAAAAAAAAAAAAAAAAAAAAAAAAAAAAAAAAAAAAAAAAA").2 ≠ [] ∧
      ∀ g ∈ (fetchFromIPFS [.error "a", .error "b", .error "c", .error "d", .error "e"]
        "QmAAAAAAAAAAAAAAAAAAAAAAAAAAAAAAAAAAAAAAAAAAAA").2, g ∈ ipfsGateways) := by
  refine ⟨?_, ?_, ?_, ?_⟩
  · exact (c6_resolve_classification [] "x" (fun _ => "d") ⟨"", false, 0⟩ 0).1 (by decide)
  · exact (c6_resolve_classification [] "fallback_0123456789abcdef0123456789abcdef"
      (fun _ => "d") ⟨"", false, 0⟩ 0).2.1 (by decide)
  · exact (c6_resolve_classification [] "hello world" (fun _ => "d") ⟨"", false, 0⟩ 0).2.2.1
      (by decide) (by decide)
  · exact (c6_resolve_classification [.error "a", .error "b", .error "c", .error "d", .error "e"]
      "QmAAAAAAAAAAAAAAAAAAAAAAAAAAAAAAAAAAAAAAAAAAAA" (fun _ => "d") ⟨"", false, 0⟩ 0).2.2.2
      (by decide) (by decide) rfl

/-- A gateway response is consistent with the stored payload d when any
successful answer returns exactly d (the store is content-addressed). -/
def consistentWith (d : TaskData) : GatewayResponse → Bool
  | .ok d2 => decide (d2 = d)
  | .error _ => true

theorem tryGateways_ok (d : TaskData) (l : List (String × GatewayResponse)) :
    ∀ last : Option String,
      (∀ p ∈ l, consistentWith d p.2 = true) →
      (∃ p ∈ l, p.2 = .ok d) →
      (tryGateways l last).1 = .ok d := by
  induction l with
  | nil =>
    intro last _ hex
    simp at hex
  | cons p rest ih =>
    intro last hall hex
    obtain ⟨g0, r0⟩ := p
    cases r0 with
    | ok d2 =>
      have hc := hall (g0, .ok d2) (by simp)
      simp only [consistentWith, decide_eq_true_eq] at hc
      subst hc
      simp [tryGateways]
    | error e0 =>
      have hex2 : ∃ p ∈ rest, p.2 = Except.ok d := by
        rcases hex with ⟨p, hp, hok⟩
        rcases List.mem_cons.mp hp with rfl | hp2
        · simp at hok
        · exact ⟨p, hp2, hok⟩
      have hall2 : ∀ p ∈ rest, consistentWith d p.2 = true :=
        fun p hp => hall p (List.mem_cons_of_mem _ hp)
      simp only [tryGateways]
      exact ih (some e0) hall2 hex2

/-- C1: for every content object, resolving the reference produced by upload
yields the stored text when the content store is reachable; when the gateways
are unreachable it yields a non-empty degraded placeholder carrying a prefix
of the reference and the final gateway error; when the upload itself was
degraded it yields the non-empty locally-saved marker carrying part of the
fallback reference; and resolve is total: every exceptional path of its
try-block is converted into a returned placeholder value, never a thrown
error. -/
theorem c1_upload_resolve_roundtrip :
    (∀ (d : TaskData) (h : String) (resp : List GatewayResponse),
      isValidIPFSHash h = true → jsStartsWith h "fallback_" = false →
      (∀ p ∈ ipfsGateways.zip resp, consistentWith d p.2 = true) →
      (Except.ok d : GatewayResponse) ∈ resp → resp.length = 5 →
      (fetchFromIPFS resp (uploadToIPFS (.ok h) d)).1 = .fetched d ∧
      ((fetchFromIPFS resp (uploadToIPFS (.ok h) d)).1).text = d.text) ∧
    (∀ (d : TaskData) (h : String) (e1 e2 e3 e4 e5 : String),
      isValidIPFSHash h = true → jsStartsWith h "fallback_" = false →
      fetchFromIPFS [.error e1, .error e2, .error e3, .error e4, .error e5]
          (uploadToIPFS (.ok h) d) =
        (.unavailable ("Task (temporarily unavailable: " ++ jsTake h 8 ++ "...)")
          ("We tried all available sources but couldn\x27t find your task data. Last error: " ++ e5),
         ipfsGateways) ∧
      ("Task (temporarily unavailable: " ++ jsTake h 8 ++ "...)" : String) ≠ "" ∧
      jsIncludes ("Task (temporarily unavailable: " ++ jsTake h 8 ++ "...)") (jsTake h 8) = true) ∧
    (∀ (d : TaskData) (pin : PinataResponse) (resp : List GatewayResponse),
      pin = .httpError ∨ pin = .netError →
      (fetchFromIPFS resp (uploadToIPFS pin d)).1 =
        .fallbackNote ("Task (saved locally: " ++
          jsSubstring (uploadToIPFS pin d) 9 15 ++ "...)") ∧
      (fetchFromIPFS resp (uploadToIPFS pin d)).2 = [] ∧
      ("Task (saved locally: " ++ jsSubstring (uploadToIPFS pin d) 9 15 ++ "...)" : String) ≠ "" ∧
      jsIncludes ("Task (saved locally: " ++ jsSubstring (uploadToIPFS pin d) 9 15 ++ "...)")
        (jsSubstring (uploadToIPFS pin d) 9 15) = true) ∧
    (∀ (resp : List GatewayResponse) (ref : String) (e : String),
      (fetchFromIPFSTry resp ref).1 = .error e →
      fetchFromIPFS resp ref =
        (.unavailable ("Task (temporarily unavailable: " ++ jsTake ref 8 ++ "...)") e,
         (fetchFromIPFSTry resp ref).2)) := by
  refine ⟨?_, ?_, ?_, ?_⟩
  · intro d h resp h2 h3 hall hmem h5
    have hup : uploadToIPFS (.ok h) d = h := rfl
    obtain ⟨i, hi, hr⟩ := List.getElem_of_mem hmem
    have hi5 : i < 5 := by omega
    have hzi : i < (ipfsGateways.zip resp).length := by
      rw [List.length_zip, h5, show ipfsGateways.length = 5 from rfl]
      omega
    have hex : ∃ p ∈ ipfsGateways.zip resp, p.2 = Except.ok d := by
      refine ⟨(ipfsGateways.zip resp).get ⟨i, hzi⟩, List.get_mem _ i hzi, ?_⟩
      rw [List.get_eq_getElem, List.getElem_zip]
      simpa using hr
    have hok : (tryGateways (ipfsGateways.zip resp) none).1 = .ok d :=
      tryGateways_ok d _ none hall hex
    rw [hup]
    constructor
    · simp [fetchFromIPFS, fetchFromIPFSTry, h2, h3, hok]
    · simp [fetchFromIPFS, fetchFromIPFSTry, h2, h3, hok, ResolveOutcome.text]
  · intro d h e1 e2 e3 e4 e5 h2 h3
    have hup : uploadToIPFS (.ok h) d = h := rfl
    rw [hup]
    refine ⟨?_, ?_, ?_⟩
    · simp [fetchFromIPFS, fetchFromIPFSTry, h2, h3, ipfsGateways, tryGateways]
    · rw [String.append_assoc]
      exact append_ne_empty_left _ _ (by decide)
    · exact jsIncludes_append "Task (temporarily unavailable: " (jsTake h 8) "...)"
  · intro d pin resp hpin
    have hup : uploadToIPFS pin d =
        "fallback_" ++ jsTake (sha256Hex (utf8Encode (stringifyTaskData d))) 32 := by
      rcases hpin with rfl | rfl <;> rfl
    have hsw : jsStartsWith (uploadToIPFS pin d) "fallback_" = true := by
      rw [hup]
      exact jsStartsWith_append _ _
    refine ⟨?_, ?_, ?_, ?_⟩
    · simp [fetchFromIPFS, fetchFromIPFSTry, hsw]
    · simp [fetchFromIPFS, fetchFromIPFSTry, hsw]
    · rw [String.append_assoc]
      exact append_ne_empty_left _ _ (by decide)
    · exact jsIncludes_append "Task (saved locally: " _ "...)"
  · intro resp ref e he
    simp [fetchFromIPFS, he]

theorem c1_upload_resolve_roundtrip_witness :
    ((fetchFromIPFS [.error "timeout", .ok ⟨"buy milk", "2024", "1.0", "task"⟩,
        .error "x", .error "y", .error "z"]
      (uploadToIPFS (.ok "QmAAAAAAAAAAAAAAAAAAAAAAAAAAAAAAAAAAAAAAAAAAAA")
        ⟨"buy milk", "2024", "1.0", "task"⟩)).1).text = "buy milk" ∧
    (fetchFromIPFS [.error "a", .error "b", .error "c", .error "d", .error "e"]
        (uploadToIPFS (.ok "QmAAAAAAAAAAAAAAAAAAAAAAAAAAAAAAAAAAAAAAAAAAAA")
          ⟨"buy milk", "2024", "1.0", "task"⟩) =
      (.unavailable ("Task (temporarily unavailable: " ++
          jsTake "QmAAAAAAAAAAAAAAAAAAAAAAAAAAAAAAAAAAAAAAAAAAAA" 8 ++ "...)")
        ("We tried all available sources but couldn\x27t find your task data. Last error: e"),
       ipfsGateways)) ∧
    ((fetchFromIPFS [] (uploadToIPFS .httpError ⟨"buy milk", "2024", "1.0", "task"⟩)).2 = []) := by
  refine ⟨?_, ?_, ?_⟩
  · exact ((c1_upload_resolve_roundtrip).1 ⟨"buy milk", "2024", "1.0", "task"⟩
      "QmAAAAAAAAAAAAAAAAAAAAAAAAAAAAAAAAAAAAAAAAAAAA"
      [.error "timeout", .ok ⟨"buy milk", "2024", "1.0", "task"⟩, .error "x", .error "y", .error "z"]
      (by decide) (by decide) (by decide) (by decide) rfl).2
  · exact ((c1_upload_resolve_roundtrip).2.1 ⟨"buy milk", "2024", "1.0", "task"⟩
      "QmAAAAAAAAAAAAAAAAAAAAAAAAAAAAAAAAAAAAAAAAAAAA" "a" "b" "c" "d" "e"
      (by decide) (by decide)).1
  · exact ((c1_upload_resolve_roundtrip).2.2.1 ⟨"buy milk", "2024", "1.0", "task"⟩
      .httpError [] (Or.inl rfl)).2.1

/- Price-scaling lemmas. -/

theorem takeWhile_all_append (f : Char → Bool) (p rest : List Char) (hp : p.all f = true) :
    (p ++ rest).takeWhile f = p ++ rest.takeWhile f := by
  induction p with
  | nil => simp
  | cons c cs ih =>
    simp only [List.all_cons, Bool.and_eq_true] at hp
    simp [List.takeWhile_cons, hp.1, ih hp.2]

theorem parseDec_val_2500_50 : parseDec "2500.50" = some (5001 / 2 : ℚ) := by
  have h0 : parseDec "2500.50" = some (((2500 : ℕ) : ℚ) + ((50 : ℕ) : ℚ) / 10 ^ 2) := rfl
  rw [h0]
  exact congrArg some (by push_cast; norm_num)

theorem parseDec_val_15e9 : parseDec "0.000000015" = some (15 / 10 ^ 9 : ℚ) := by
  have h0 : parseDec "0.000000015" = some (((0 : ℕ) : ℚ) + ((15 : ℕ) : ℚ) / 10 ^ 9) := rfl
  rw [h0]
  exact congrArg some (by push_cast; norm_num)

theorem int_log2_pin (q : ℚ) (L : ℤ) (h0 : 0 < q)
    (h1 : (2 : ℚ) ^ L ≤ q) (h2 : q < (2 : ℚ) ^ (L + 1)) : Int.log 2 q = L := by
  have ha : L ≤ Int.log 2 q := by
    rw [← Int.zpow_le_iff_le_log one_lt_two h0,
      show (((2 : ℕ) : ℚ)) = (2 : ℚ) by norm_num]
    exact h1
  have hb : Int.log 2 q < L + 1 := by
    rw [← Int.lt_zpow_iff_log_lt one_lt_two h0,
      show (((2 : ℕ) : ℚ)) = (2 : ℚ) by norm_num]
    exact h2
  omega

/-- Evaluator for fpRound on positive inputs whose value rounds down (the
fraction below one half): given the binade L and the floored mantissa m0,
fpRound returns m0 times 2 to the L - 52. -/
theorem fpRound_eval (q : ℚ) (L m0 : ℤ) (h0 : 0 < q)
    (hLlow : -1022 ≤ L) (hLhi : L ≤ 1023) (hm0hi : m0 < 2 ^ 53)
    (h1 : (2 : ℚ) ^ L ≤ q) (h2 : q < (2 : ℚ) ^ (L + 1))
    (h3 : (m0 : ℚ) * (2 : ℚ) ^ (L - 52) ≤ q)
    (h4 : q < ((m0 : ℚ) + 1 / 2) * (2 : ℚ) ^ (L - 52)) :
    fpRound q = (m0 : ℚ) * (2 : ℚ) ^ (L - 52) := by
  have hlog := int_log2_pin q L h0 h1 h2
  have hmax : max (L - 52) (-1074 : ℤ) = L - 52 := by omega
  have hepos : (0 : ℚ) < (2 : ℚ) ^ (L - 52) := zpow_pos (by norm_num) _
  have hsle : (m0 : ℚ) ≤ q / 2 ^ (L - 52) := (le_div_iff₀ hepos).mpr h3
  have hslt : q / 2 ^ (L - 52) < (m0 : ℚ) + 1 / 2 := (div_lt_iff₀ hepos).mpr h4
  have hfloor : ⌊q / 2 ^ (L - 52)⌋ = m0 := by
    rw [Int.floor_eq_iff]
    exact ⟨hsle, by linarith⟩
  have hfr : q / 2 ^ (L - 52) - (m0 : ℚ) < 1 / 2 := by linarith
  have hmant : fpMantissa q = m0 := by
    simp only [fpMantissa]
    rw [hlog, hmax, hfloor]
    rw [if_pos hfr]
  have hmag : fpMag q = (m0 : ℚ) * 2 ^ (L - 52) := by
    simp only [fpMag]
    rw [hmant, hlog, hmax]
  have hm0q : (m0 : ℚ) < (2 : ℚ) ^ (53 : ℕ) := by exact_mod_cast hm0hi
  have hbound : fpMag q < (2 : ℚ) ^ (1024 : ℤ) := by
    rw [hmag]
    calc (m0 : ℚ) * 2 ^ (L - 52) < (2 : ℚ) ^ (53 : ℕ) * 2 ^ (L - 52) :=
          mul_lt_mul_of_pos_right hm0q hepos
      _ ≤ (2 : ℚ) ^ (1024 : ℤ) := by
          rw [show ((2 : ℚ) ^ (53 : ℕ)) = (2 : ℚ) ^ (53 : ℤ) from (zpow_natCast 2 53).symm,
            ← zpow_add₀ (two_ne_zero : (2 : ℚ) ≠ 0)]
          exact zpow_le_zpow_right₀ one_le_two (by omega)
  have hne : q ≠ 0 := ne_of_gt h0
  have hnlt : ¬ q < 0 := not_lt.mpr h0.le
  have hfp : fpRound q = fpMag q := by
    simp only [fpRound, if_neg hne, if_neg hnlt, if_neg (not_le.mpr hbound)]
  rw [hfp, hmag]

/-- 2500.5 is exactly representable in binary64. -/
theorem fpRound_2500_5 : fpRound (5001 / 2 : ℚ) = 5001 / 2 :=
  (fpRound_eval (5001 / 2) 11 5498657650507776 (by norm_num) (by norm_num) (by norm_num)
    (by norm_num) (by norm_num) (by norm_num) (by norm_num) (by norm_num)).trans (by norm_num)

/-- 250050000000 is exactly representable in binary64. -/
theorem fpRound_250050000000 : fpRound (250050000000 : ℚ) = 250050000000 :=
  (fpRound_eval 250050000000 37 8193638400000000 (by norm_num) (by norm_num) (by norm_num)
    (by norm_num) (by norm_num) (by norm_num) (by norm_num) (by norm_num)).trans (by norm_num)

/-- parseFloat("0.000000015") rounds the exact value 15/10^9 down to the
nearest double. -/
theorem fpRound_15e9 : fpRound (15 / 10 ^ 9 : ℚ) = 4533471823554859 / 2 ^ 78 :=
  (fpRound_eval (15 / 10 ^ 9) (-26) 4533471823554859 (by norm_num) (by norm_num)
    (by norm_num) (by norm_num) (by norm_num) (by norm_num) (by norm_num)
    (by norm_num)).trans (by norm_num)

/-- The binary64 product of that double with 1e8 rounds down to just below
3/2: the program is one unit in the last place short of the exact 1.5. -/
theorem fpRound_15e9_times_1e8 :
    fpRound ((4533471823554859 / 2 ^ 78 : ℚ) * 100000000) = 6755399441055743 / 2 ^ 52 := by
  rw [show ((4533471823554859 / 2 ^ 78 : ℚ) * 100000000) =
      (453347182355485900000000 / 2 ^ 78 : ℚ) from by norm_num]
  exact (fpRound_eval (453347182355485900000000 / 2 ^ 78) 0 6755399441055743
    (by norm_num) (by norm_num) (by norm_num) (by norm_num) (by norm_num) (by norm_num)
    (by norm_num) (by norm_num)).trans (by norm_num)

/-- 0.075 = 7500000/1e8 rounds down to a double just below 3/40. -/
theorem fpRound_0_075 : fpRound ((7500000 : ℚ) / 100000000) = 5404319552844595 / 2 ^ 56 := by
  rw [show ((7500000 : ℚ) / 100000000) = (3 / 40 : ℚ) from by norm_num]
  exact (fpRound_eval (3 / 40) (-4) 5404319552844595 (by norm_num) (by norm_num)
    (by norm_num) (by norm_num) (by norm_num) (by norm_num) (by norm_num)
    (by norm_num)).trans (by norm_num)

/-- C2 (amended): the part_000 conditional-completion handler sends the
threshold as Math.round(parseFloat(threshold) * 1e8) computed in binary64,
which equals round(threshold * 10^8) whenever the two double roundings are
exact on the entered value; the displayed price equals the contract-returned
integer divided by 10^8 rendered to two decimal places whenever the division
is exact in binary64; the part_002 handler, by contrast, sends only the
integer part of the entered string (parseInt), unscaled. -/
theorem c2_price_scaling (s : String) (q : ℚ) (p : ℕ) (ip fr : List Char) :
    (parseDec s = some q → fpRound q = q → fpRound (q * 100000000) = q * 100000000 →
      sentThreshold000 s = some (round (q * 100000000))) ∧
    (fpRound ((p : ℚ) / 100000000) = (p : ℚ) / 100000000 →
      formatPrice p = displayOfContractPrice p) ∧
    (ip.all isDigitChar = true →
      sentThreshold002 (String.mk (ip ++ '.' :: fr)) =
        if ip.isEmpty then none else some ((digitsToNat ip : ℤ))) := by
  refine ⟨?_, ?_, ?_⟩
  · intro h hx hy
    simp [sentThreshold000, to12DigitPriceFormat, jsParseFloat, h, hx, hy, jsRound, round_eq]
  · intro hx
    simp only [formatPrice, hx, toFixed2, displayOfContractPrice, round_eq]
  · intro hip
    simp only [sentThreshold002, jsParseInt]
    rw [takeWhile_all_append _ _ _ hip]
    rw [show ('.' :: fr).takeWhile isDigitChar = [] from rfl]
    simp

/-- C2 counterexample: the part_002 handler sends 2500 for the decimal
string 2500.50 where round(2500.50 * 10^8) = 250050000000; moreover even the
part_000 handler diverges from the exact scaling at binary64 tie points: for
0.000000015 it sends 1 where round(0.000000015 * 10^8) = 2, and the display
for the contract price 7500000 is 0.07 where the exact two-decimal rendering
of 7500000/10^8 is 0.08. -/
theorem c2_price_scaling_counterexample :
    parseDec "2500.50" = some (5001 / 2 : ℚ) ∧
    round ((5001 / 2 : ℚ) * 100000000) = (250050000000 : ℤ) ∧
    sentThreshold002 "2500.50" = some 2500 ∧
    (some (2500 : ℤ) ≠ some (250050000000 : ℤ)) ∧
    parseDec "0.000000015" = some (15 / 10 ^ 9 : ℚ) ∧
    sentThreshold000 "0.000000015" = some 1 ∧
    round ((15 / 10 ^ 9 : ℚ) * 100000000) = (2 : ℤ) ∧
    formatPrice 7500000 = "0.07" ∧
    displayOfContractPrice 7500000 = "0.08" := by
  refine ⟨parseDec_val_2500_50, ?_, by decide, by decide, parseDec_val_15e9, ?_, ?_, ?_, ?_⟩
  · rw [show ((5001 / 2 : ℚ) * 100000000) = (((250050000000 : ℕ)) : ℚ) from by norm_num,
      round_natCast]
    norm_cast
  · have hfl : ⌊(6755399441055743 / 2 ^ 52 : ℚ) + 1 / 2⌋ = 1 := by
      rw [Int.floor_eq_iff]
      constructor <;> norm_num
    rw [show sentThreshold000 "0.000000015" =
        Option.map (fun x => jsRound (fpRound (x * 100000000)))
          (Option.map fpRound (parseDec "0.000000015")) from rfl,
      parseDec_val_15e9,
      show Option.map (fun x => jsRound (fpRound (x * 100000000)))
          (Option.map fpRound (some (15 / 10 ^ 9 : ℚ))) =
        some (jsRound (fpRound (fpRound (15 / 10 ^ 9 : ℚ) * 100000000))) from rfl,
      fpRound_15e9, fpRound_15e9_times_1e8,
      show jsRound (6755399441055743 / 2 ^ 52 : ℚ) =
        ⌊(6755399441055743 / 2 ^ 52 : ℚ) + 1 / 2⌋ from rfl,
      hfl]
  · rw [show ((15 / 10 ^ 9 : ℚ) * 100000000) = (3 / 2 : ℚ) from by norm_num, round_eq,
      show ((3 / 2 : ℚ) + 1 / 2) = (((2 : ℤ)) : ℚ) from by norm_num, Int.floor_intCast]
  · simp only [formatPrice, Nat.cast_ofNat, fpRound_0_075, toFixed2]
    have hfl : ⌊(5404319552844595 / 2 ^ 56 : ℚ) * 100 + 1 / 2⌋ = 7 := by
      rw [Int.floor_eq_iff]
      constructor <;> norm_num
    rw [hfl]
    decide
  · have h8 : round (((7500000 : ℕ) : ℚ) / 100000000 * 100) = 8 := by
      rw [round_eq,
        show (((7500000 : ℕ) : ℚ) / 100000000 * 100 + 1 / 2) = (((8 : ℤ)) : ℚ) from by
          push_cast; norm_num,
        Int.floor_intCast]
    simp only [displayOfContractPrice, h8]
    decide

theorem c2_price_scaling_witness :
    sentThreshold000 "2500.50" = some (round ((5001 / 2 : ℚ) * 100000000)) ∧
    formatPrice 250050000000 = displayOfContractPrice 250050000000 ∧
    sentThreshold002 (String.mk (['2', '5', '0', '0'] ++ '.' :: ['5', '0'])) = some 2500 := by
  refine ⟨(c2_price_scaling "2500.50" (5001 / 2) 0 [] []).1 parseDec_val_2500_50
      fpRound_2500_5 ?_, (c2_price_scaling "" 0 250050000000 [] []).2.1 ?_, ?_⟩
  · rw [show ((5001 / 2 : ℚ) * 100000000) = (250050000000 : ℚ) from by norm_num]
    exact fpRound_250050000000
  · rw [show (((250050000000 : ℕ)) : ℚ) / 100000000 = (5001 / 2 : ℚ) from by
      push_cast; norm_num]
    exact fpRound_2500_5
  · rw [(c2_price_scaling "" 0 0 ['2', '5', '0', '0'] ['5', '0']).2.2 (by decide)]
    decide
